import Mathlib

/-!
Shallow embedding of the SafeShip credit-aware query/cache layer:

* `src/backend/src/services/mstClient.ts` — upstream AIS client (`request`
  with TTL cache, `buildCacheKey`, `readCache`, `writeCache`,
  `sanitizeParams`) and the ship normalizer (`buildShipId`,
  `mapZoneVesselToShip`, `mapPortVesselToShip`);
* `src/backend/src/legacy/area.ts` — bounding-box normalizer
  (`normalizeBox`, `parseBoundingBoxToken`, `tokenizeAreaExpression`) and
  the area / near-me query planner (`fetchVesselsInArea`,
  `fetchVesselsNearMe`, `formatMinutesBack`, `mapZoneResults`);
* `src/unnamed/part_003` — port mode (`resolvePortIdentifier`,
  `getVesselsInPort`).

Modelling conventions:

* JavaScript numbers are exact rationals `ℚ`; `NaN` is modelled explicitly
  by `JsNum` where the source can observe it (vessel coordinates and
  `Number(...)` parsing).  IEEE rounding and infinities are outside the
  model.
* `Date.now()` is an explicit `now : ℕ` parameter (milliseconds).
* Upstream HTTP traffic is an explicit oracle argument (a response value,
  or a function from call index / query to a response), so every modelled
  operation is a pure Lean function of its inputs and its oracle.
* Configuration constants are fixed at the source defaults (no environment
  overrides): these are the values the code declares inline.
* `Number(...)` string parsing is implemented for the decimal fragment
  (optional sign, digits, fraction, exponent, whitespace trimming, empty
  string to 0); hex literals and `Infinity` are outside the model.  The
  universally quantified area theorems do not depend on which strings the
  parser accepts, only on the parsed result being fed to `normalizeBox`.
-/

namespace SafeShip

/-- Decidable equality for `Except`, used to evaluate concrete runs. -/
instance {ε α : Type} [DecidableEq ε] [DecidableEq α] : DecidableEq (Except ε α) := fun
  | .ok a, .ok b =>
      if h : a = b then isTrue (congrArg Except.ok h)
      else isFalse (fun hh => h (Except.ok.inj hh))
  | .ok _, .error _ => isFalse (fun hh => Except.noConfusion hh)
  | .error _, .ok _ => isFalse (fun hh => Except.noConfusion hh)
  | .error e, .error f =>
      if h : e = f then isTrue (congrArg Except.error h)
      else isFalse (fun hh => h (Except.error.inj hh))

/-- A JavaScript number: either `NaN` or a finite value (an exact `ℚ`). -/
inductive JsNum where
  | nan : JsNum
  | fin : ℚ → JsNum
deriving DecidableEq

namespace JsNum

/-- `Number.isNaN`. -/
def isNaN : JsNum → Bool
  | .nan => true
  | .fin _ => false

end JsNum

/-- Truthiness of an optional JS number field (`null`/`undefined`, `0` and
`NaN` are falsy). -/
def jsTruthyNum : Option JsNum → Bool
  | none => false
  | some .nan => false
  | some (.fin q) => q ≠ 0

/-- Truthiness of an optional JS integer field (`null`/`undefined` and `0`
are falsy). -/
def jsTruthyInt : Option ℤ → Bool
  | none => false
  | some n => n ≠ 0

/-- Truthiness of an optional JS string field (`null`/`undefined` and `""`
are falsy). -/
def jsTruthyStr : Option String → Bool
  | none => false
  | some s => s ≠ ""

/-- `clampNumber` from `area.ts`: `Math.min(Math.max(value, min), max)`. -/
def clampNumber (value lo hi : ℚ) : ℚ :=
  Min.min (Max.max value lo) hi

/-- Integer clamp, used where the clamped value is known to be an integer
(`formatMinutesBack` clamps the result of `Math.round`). -/
def clampInt (value lo hi : ℤ) : ℤ :=
  Min.min (Max.max value lo) hi

/-- JavaScript `Math.round` on a finite value: floor of `x + 1/2`
(JS rounds halves toward positive infinity). -/
def jsRound (q : ℚ) : ℤ := ⌊q + 1 / 2⌋

/-! ### Character-level string utilities

Modelled directly on `List Char` so that concrete runs reduce inside the
kernel.  They implement the observable behaviour of the JS string methods
used by the source (`trim`, `split` on a one-character separator,
`toUpperCase`/`toLowerCase` and `startsWith` on ASCII data). -/

/-- Drop JS-whitespace from both ends of a character list (`String.trim`). -/
def trimChars (l : List Char) : List Char :=
  ((l.dropWhile Char.isWhitespace).reverse.dropWhile Char.isWhitespace).reverse

/-- `s.trim()`. -/
def jsTrim (s : String) : String := String.mk (trimChars s.toList)

/-- Split a character list on a separator character, JS `split` semantics
(`"".split(sep)` yields `[""]`, empty fields are kept). -/
def splitChars (sep : Char) : List Char → List Char → List (List Char)
  | [], acc => [acc.reverse]
  | c :: rest, acc =>
      if c = sep then acc.reverse :: splitChars sep rest []
      else splitChars sep rest (c :: acc)

/-- `s.split(sep)` for a one-character separator. -/
def jsSplitOn (sep : Char) (s : String) : List String :=
  (splitChars sep s.toList []).map String.mk

/-- `s.toUpperCase()` (ASCII). -/
def jsToUpper (s : String) : String := String.mk (s.toList.map Char.toUpper)

/-- `s.toLowerCase()` (ASCII). -/
def jsToLower (s : String) : String := String.mk (s.toList.map Char.toLower)

/-- Does `l` start with `pat`? -/
def startsWithChars : List Char → List Char → Bool
  | _, [] => true
  | [], _ :: _ => false
  | c :: cs, p :: ps => c = p && startsWithChars cs ps

/-- `s.startsWith(pat)`. -/
def jsStartsWith (s pat : String) : Bool := startsWithChars s.toList pat.toList

/-- Numeric value of a decimal digit character. -/
def digitVal (c : Char) : ℕ := c.toNat - ('0').toNat

/-- Decimal value of a digit list. -/
def digitsToNat (l : List Char) : ℕ := l.foldl (fun acc c => acc * 10 + digitVal c) 0

/-! ### `Number(...)`: decimal string-to-number coercion -/

/-- Consume an optional leading sign; returns (isNegative, rest). -/
def parseSign : List Char → Bool × List Char
  | [] => (false, [])
  | c :: rest =>
      if c = '+' then (false, rest)
      else if c = '-' then (true, rest)
      else (false, c :: rest)

/-- Consume an optional `.digits` fraction; returns (fractionDigits, rest). -/
def parseFrac : List Char → List Char × List Char
  | [] => ([], [])
  | c :: tl => if c = '.' then tl.span Char.isDigit else ([], c :: tl)

/-- Consume an optional exponent suffix occupying the whole rest of the
input; `none` means the input is malformed. -/
def parseExp : List Char → Option ℤ
  | [] => some 0
  | c :: tl =>
      if c = 'e' ∨ c = 'E' then
        let sp := parseSign tl
        let dp := sp.2.span Char.isDigit
        if dp.1 = [] ∨ dp.2 ≠ [] then none
        else some (if sp.1 then -(digitsToNat dp.1 : ℤ) else (digitsToNat dp.1 : ℤ))
      else none

/-- Parse an unsigned decimal numeral `digits[.digits][e[±]digits]` spanning
the whole input; at least one mantissa digit is required. -/
def parseNumBody (l : List Char) : Option ℚ :=
  let ip := l.span Char.isDigit
  let fp := parseFrac ip.2
  if ip.1 = [] ∧ fp.1 = [] then none
  else
    match parseExp fp.2 with
    | none => none
    | some e =>
        let mant : ℚ := (digitsToNat ip.1 : ℚ) + (digitsToNat fp.1 : ℚ) / (10 : ℚ) ^ fp.1.length
        some (if 0 ≤ e then mant * (10 : ℚ) ^ e.toNat else mant / (10 : ℚ) ^ (-e).toNat)

/-- JS `Number(s)` on the decimal fragment: trims, maps the empty string to
`0`, otherwise parses an optionally signed decimal numeral; anything else
is `NaN`. -/
def jsNumber (s : String) : JsNum :=
  let t := trimChars s.toList
  if t = [] then .fin 0
  else
    let sp := parseSign t
    match parseNumBody sp.2 with
    | some q => .fin (if sp.1 then -q else q)
    | none => .nan

/-! ### Data model (`mstClient.ts`, `shipTransform.ts`) -/

/-- `MstZoneVessel`: one upstream zone/bulk vessel record.  Identity fields
are integers-or-null; coordinates can be `NaN`.  (`MstVesselStatus` extends
this shape with extra optional strings not consumed by the modelled
flows.) -/
structure MstZoneVessel where
  vessel_name : String
  mmsi : Option ℤ
  imo : Option ℤ
  vtype : Option ℤ
  lat : JsNum
  lng : JsNum
  course : Option ℚ
  speed : Option ℚ
  nav_status : Option String
  received : String
deriving DecidableEq

/-- `MstPortVessel`: one upstream in-port vessel record (the tonnage and
dimension fields, unused by the modelled flows, are elided). -/
structure MstPortVessel where
  mmsi : Option ℤ
  imo : Option ℤ
  name : String
  arrived : Option String
  vtype : Option ℤ
  vessel_type : Option String
  flag : Option String
deriving DecidableEq

/-- `MstPortSearchResult`: one upstream port-search hit. -/
structure MstPortSearchResult where
  port_id : ℚ
  name : String
  unloco : String
  port_type : String
  country : String
deriving DecidableEq

/-- `ShipSummary`: the canonical normalized vessel record. -/
structure ShipSummary where
  name : String
  id : String
  lat : JsNum
  lon : JsNum
  timestamp : String
  mmsi : String
  imo : String
  callsign : String
  speed : ℚ
  area : String
  type : String
  country : String
  destination : String
  port_current : String
  port_next : String
  course : Option ℚ
  nav_status : Option String
  source : String
deriving DecidableEq

/-- `[name, timestamp].filter(Boolean).join("-")` specialised to its
two-element use in `buildShipId`. -/
def buildFallback (name timestamp : String) : String :=
  if name = "" then (if timestamp = "" then "" else timestamp)
  else (if timestamp = "" then name else name ++ "-" ++ timestamp)

/-- `buildShipId` from `shipTransform.ts`: mmsi, else imo, else
`name-timestamp`, else the time-based synthetic id `ship-(Date.now())`. -/
def buildShipId (now : ℕ) (mmsi imo : Option ℤ) (name timestamp : String) : String :=
  if jsTruthyInt mmsi then toString (mmsi.getD 0)
  else if jsTruthyInt imo then toString (imo.getD 0)
  else
    let fallback := buildFallback name timestamp
    if fallback ≠ "" then fallback else "ship-" ++ toString now

/-- `mapZoneVesselToShip`: normalize one zone/bulk record. -/
def mapZoneVesselToShip (now : ℕ) (vessel : MstZoneVessel) : ShipSummary where
  name := vessel.vessel_name
  id := buildShipId now vessel.mmsi vessel.imo vessel.vessel_name vessel.received
  lat := vessel.lat
  lon := vessel.lng
  timestamp := vessel.received
  mmsi := if jsTruthyInt vessel.mmsi then toString (vessel.mmsi.getD 0) else ""
  imo := if jsTruthyInt vessel.imo then toString (vessel.imo.getD 0) else ""
  callsign := ""
  speed := vessel.speed.getD 0
  area := ""
  type := if jsTruthyInt vessel.vtype then toString (vessel.vtype.getD 0) else ""
  country := ""
  destination := ""
  port_current := ""
  port_next := ""
  course := vessel.course
  nav_status := vessel.nav_status
  source := "myshiptracking.com"

/-- `mapPortVesselToShip`: normalize one in-port record (`lat`/`lon` are set
to `NaN` explicitly). -/
def mapPortVesselToShip (now : ℕ) (vessel : MstPortVessel) : ShipSummary where
  name := vessel.name
  id := buildShipId now vessel.mmsi vessel.imo vessel.name (vessel.arrived.getD "")
  lat := .nan
  lon := .nan
  timestamp := vessel.arrived.getD ""
  mmsi := if jsTruthyInt vessel.mmsi then toString (vessel.mmsi.getD 0) else ""
  imo := if jsTruthyInt vessel.imo then toString (vessel.imo.getD 0) else ""
  callsign := ""
  speed := 0
  area := ""
  type := vessel.vessel_type.getD (if jsTruthyInt vessel.vtype then toString (vessel.vtype.getD 0) else "")
  country := vessel.flag.getD ""
  destination := ""
  port_current := ""
  port_next := ""
  course := none
  nav_status := none
  source := "myshiptracking.com"

/-! ### Bounding-box normalizer and area planner (`area.ts`) -/

/-- A bounding box in degrees. -/
structure BoundingBox where
  minLat : ℚ
  maxLat : ℚ
  minLon : ℚ
  maxLon : ℚ
deriving DecidableEq

/-- `MST_DEFAULT_MINUTES_BACK` source default. -/
def DEFAULT_MINUTES_BACK : ℤ := 60

/-- `MST_MAX_LAT_SPAN` source default. -/
def MAX_LAT_SPAN : ℚ := 10

/-- `MST_MAX_LON_SPAN` source default. -/
def MAX_LON_SPAN : ℚ := 25

/-- `MST_MAX_RESULTS` source default. -/
def MAX_RESULTS : ℕ := 200

/-- `MST_MAX_PORT_VESSELS` source default. -/
def MAX_PORT_VESSELS : ℕ := 40

/-- `MST_CACHE_TTL_MS` source default. -/
def DEFAULT_CACHE_MS : ℕ := 30000

/-- The `AREA_PRESETS` table (uppercase key to preset box). -/
def AREA_PRESETS (name : String) : Option BoundingBox :=
  if name = "WMED" then some ⟨34, 42, -6, 15⟩
  else if name = "EMED" then some ⟨30, 42, 15, 36⟩
  else if name = "CMED" then some ⟨32, 40, 10, 24⟩
  else if name = "BSEA" then some ⟨40, 47, 27, 42⟩
  else if name = "CARIB" then some ⟨10, 22, -88, -60⟩
  else none

/-- Error raised by `normalizeBox` (the source throws an `Error` whose
message carries both spans). -/
inductive AreaError where
  | boxTooLarge (latSpan lonSpan : ℚ) : AreaError
deriving DecidableEq

/-- Latitude span of a box after the min/max swap. -/
def spanLat (box : BoundingBox) : ℚ :=
  Max.max box.minLat box.maxLat - Min.min box.minLat box.maxLat

/-- Longitude span of a box after the min/max swap. -/
def spanLon (box : BoundingBox) : ℚ :=
  Max.max box.minLon box.maxLon - Min.min box.minLon box.maxLon

/-- `normalizeBox`: swap inverted bounds, reject boxes whose span exceeds a
configured per-axis maximum, clamp to valid coordinate ranges. -/
def normalizeBox (box : BoundingBox) : Except AreaError BoundingBox :=
  let minLat := Min.min box.minLat box.maxLat
  let maxLat := Max.max box.minLat box.maxLat
  let minLon := Min.min box.minLon box.maxLon
  let maxLon := Max.max box.minLon box.maxLon
  let latSpan := |maxLat - minLat|
  let lonSpan := |maxLon - minLon|
  if MAX_LAT_SPAN < latSpan ∨ MAX_LON_SPAN < lonSpan then
    .error (.boxTooLarge latSpan lonSpan)
  else
    .ok ⟨clampNumber minLat (-90) 90, clampNumber maxLat (-90) 90,
         clampNumber minLon (-180) 180, clampNumber maxLon (-180) 180⟩

/-- `parseBoundingBoxToken`: preset lookup by uppercased name, else an
explicit `bbox:minLat|minLon|maxLat|maxLon` token; malformed tokens are
dropped (`none`). -/
def parseBoundingBoxToken (token : String) : Option BoundingBox :=
  let trimmed := jsTrim token
  if trimmed = "" then none
  else
    match AREA_PRESETS (jsToUpper trimmed) with
    | some preset => some preset
    | none =>
        if jsStartsWith (jsToLower trimmed) "bbox:" then
          match (jsSplitOn ':' trimmed).get? 1 with
          | none => none
          | some coords =>
              match (jsSplitOn '|' coords).map jsNumber with
              | [.fin a, .fin b, .fin c, .fin d] => some ⟨a, c, b, d⟩
              | _ => none
        else none

/-- The token list of an area expression:
`expression.split(",").map(trim).filter(Boolean)`. -/
def tokenList (expression : String) : List String :=
  ((jsSplitOn ',' expression).map jsTrim).filter (fun t => t ≠ "")

/-- `tokenizeAreaExpression`: parse every token, normalize every parsed
box (the first oversized box aborts the whole call), and fall back to the
`WMED` preset when the expression is empty or nothing parsed. -/
def tokenizeAreaExpression (expression : String) : Except AreaError (List BoundingBox) :=
  if expression = "" then .ok [⟨34, 42, -6, 15⟩]
  else do
    let boxes ← ((tokenList expression).filterMap parseBoundingBoxToken).mapM normalizeBox
    pure (if boxes = [] then [⟨34, 42, -6, 15⟩] else boxes)

/-- `formatMinutesBack`: falsy (absent, `0`) or `NaN` input yields the
configured default; otherwise round and clamp into `[60, 720]`. -/
def formatMinutesBack : Option JsNum → ℤ
  | none => DEFAULT_MINUTES_BACK
  | some .nan => DEFAULT_MINUTES_BACK
  | some (.fin q) =>
      if q = 0 then DEFAULT_MINUTES_BACK
      else clampInt (jsRound q) 60 720

/-- A zone query as built by the planner (`minutesBack` is always set by
both planner call sites, so it is modelled as required). -/
structure ZoneQuery where
  minLat : ℚ
  maxLat : ℚ
  minLon : ℚ
  maxLon : ℚ
  minutesBack : ℤ
  response : String
deriving DecidableEq

/-- `mapZoneResults`: drop entries with `NaN` coordinates, truncate to the
configured result cap. -/
def mapZoneResults (vessels : List ShipSummary) : List ShipSummary :=
  (vessels.filter (fun s => !s.lat.isNaN && !s.lon.isNaN)).take MAX_RESULTS

/-- One step of the dedup map: insert a normalized ship unless its id is
already present (`if (!dedup.has(mapped.id)) dedup.set(...)`; JS `Map`
preserves insertion order, modelled as an append list). -/
def insertShip (dedup : List ShipSummary) (s : ShipSummary) : List ShipSummary :=
  if dedup.any (fun t => t.id = s.id) then dedup else dedup ++ [s]

/-- The sequential box loop of `fetchVesselsInArea`.  `responses k` is the
vessel list returned by the `k`-th zone query (zone queries go through
`mstClient.getVesselsInZone`); the loop breaks once the dedup map has
reached `MAX_RESULTS`. -/
def areaLoop (now : ℕ) (responses : ℕ → List MstZoneVessel) (mb : ℤ) :
    List BoundingBox → List ShipSummary → List ZoneQuery →
    List ShipSummary × List ZoneQuery
  | [], dedup, queries => (dedup, queries)
  | box :: rest, dedup, queries =>
      let query : ZoneQuery :=
        ⟨box.minLat, box.maxLat, box.minLon, box.maxLon, mb, "simple"⟩
      let vessels := responses queries.length
      let dedup' := vessels.foldl (fun d v => insertShip d (mapZoneVesselToShip now v)) dedup
      let queries' := queries ++ [query]
      if MAX_RESULTS ≤ dedup'.length then (dedup', queries')
      else areaLoop now responses mb rest dedup' queries'

/-- `fetchVesselsInArea`: tokenize, then issue one zone query per box
sequentially with dedup and short-circuit; the second component lists the
zone queries actually issued (empty when tokenization fails, i.e. zero
upstream calls). -/
def fetchVesselsInArea (now : ℕ) (responses : ℕ → List MstZoneVessel)
    (expression : String) (minutesBack : Option JsNum) :
    Except AreaError (List ShipSummary) × List ZoneQuery :=
  match tokenizeAreaExpression expression with
  | .error e => (.error e, [])
  | .ok boxes =>
      let mb := formatMinutesBack minutesBack
      let out := areaLoop now responses mb boxes [] []
      (.ok (mapZoneResults out.1), out.2)

/-- First-occurrence dedup of a ship list (the running dedup map contents
after folding a stream of normalized ships). -/
def dedupFirst (l : List ShipSummary) : List ShipSummary := l.foldl insertShip []

/-- The stream of normalized ships produced by the first `k` zone queries. -/
def streamUpTo (now : ℕ) (responses : ℕ → List MstZoneVessel) (k : ℕ) : List ShipSummary :=
  ((List.range k).flatMap responses).map (mapZoneVesselToShip now)

/-- `nauticalMilesToLatDelta`: 1 nm is 1/60 degree of latitude. -/
def nauticalMilesToLatDelta (distanceNm : ℚ) : ℚ := distanceNm / 60

/-- `nauticalMilesToLonDelta`.  `cosDeg` models the runtime computation
`Math.cos(latitude * Math.PI / 180)` as an oracle from latitude in degrees
to its cosine; the source floors it at `0.1`. -/
def nauticalMilesToLonDelta (cosDeg : ℚ → ℚ) (distanceNm latitude : ℚ) : ℚ :=
  distanceNm / (60 * Max.max (cosDeg latitude) (1 / 10))

/-- `fetchVesselsNearMe`: clamp the radius into `[1, 50]` nm, derive a
single bounding box and issue exactly one zone query (`response` is the
oracle for that query's vessel list). -/
def fetchVesselsNearMe (now : ℕ) (cosDeg : ℚ → ℚ) (response : List MstZoneVessel)
    (lat lon distance : ℚ) (minutesBack : Option JsNum) :
    List ShipSummary × List ZoneQuery :=
  let safeDistance := clampNumber distance 1 50
  let mb := formatMinutesBack minutesBack
  let latDelta := nauticalMilesToLatDelta safeDistance
  let lonDelta := nauticalMilesToLonDelta cosDeg safeDistance lat
  let query : ZoneQuery :=
    ⟨lat - latDelta, lat + latDelta, lon - lonDelta, lon + lonDelta, mb, "simple"⟩
  (mapZoneResults (response.map (mapZoneVesselToShip now)), [query])

/-! ### Upstream AIS client: TTL cache and `request` (`mstClient.ts`) -/

/-- Errors surfaced by the client layer. -/
inductive MstError where
  | parseError (path msg : String) : MstError
  | requestFailed (code msg : String) : MstError
  | clientError (msg : String) : MstError
deriving DecidableEq

/-- A cache entry. -/
structure CacheEntry (T : Type) where
  expiresAt : ℕ
  payload : T

/-- The process-local cache map, modelled as a function from cache key to
entry. -/
def Cache (T : Type) : Type := String → Option (CacheEntry T)

/-- The empty cache. -/
def Cache.empty (T : Type) : Cache T := fun _ => none

/-- Lexicographic order on serialized parameter pairs (key, then value).
JS sorts the (distinct) keys of a params record; breaking the impossible
key-tie by value makes the order total so that the sort is
permutation-invariant. -/
def pairLe (a b : String × String) : Prop :=
  a.1 < b.1 ∨ (a.1 = b.1 ∧ a.2 ≤ b.2)

instance : DecidableRel pairLe := fun a b => by
  unfold pairLe
  infer_instance

instance : IsTotal (String × String) pairLe := by
  constructor
  intro a b
  rcases lt_trichotomy a.1 b.1 with h | h | h
  · exact Or.inl (Or.inl h)
  · rcases le_total a.2 b.2 with h2 | h2
    · exact Or.inl (Or.inr ⟨h, h2⟩)
    · exact Or.inr (Or.inr ⟨h.symm, h2⟩)
  · exact Or.inr (Or.inl h)

instance : IsTrans (String × String) pairLe := by
  constructor
  rintro a b c (hab | ⟨hab, hab2⟩) (hbc | ⟨hbc, hbc2⟩)
  · exact Or.inl (lt_trans hab hbc)
  · exact Or.inl (hbc ▸ hab)
  · exact Or.inl (hab ▸ hbc)
  · exact Or.inr ⟨hab.trans hbc, le_trans hab2 hbc2⟩

instance : IsAntisymm (String × String) pairLe := by
  constructor
  rintro a b (hab | ⟨hab, hab2⟩) (hba | ⟨hba, hba2⟩)
  · exact absurd hba (lt_asymm hab)
  · exact absurd hab (hba ▸ lt_irrefl _)
  · exact absurd hba (hab ▸ lt_irrefl _)
  · exact Prod.ext hab (le_antisymm hab2 hba2)

/-- Join a list of strings with `|`. -/
def joinPipe : List String → String
  | [] => ""
  | [s] => s
  | s :: rest => s ++ "|" ++ joinPipe rest

/-- `buildCacheKey`: the path plus the sorted `key:value` pairs joined with
`|`. -/
def buildCacheKey (path : String) (params : List (String × String)) : String :=
  path ++ "?" ++ joinPipe ((List.insertionSort pairLe params).map (fun p => p.1 ++ ":" ++ p.2))

/-- `sanitizeParams`: drop `undefined`/`null` values (values are modelled
as already stringified). -/
def sanitizeParams (params : List (String × Option String)) : List (String × String) :=
  params.filterMap (fun p => match p.2 with
    | none => none
    | some v => some (p.1, v))

/-- `readCache`: miss on absent key; lazily evict and miss when the entry
is past expiry (`expiresAt < Date.now()`); hit otherwise.  Returns the
lookup result and the possibly-evicted cache. -/
def readCache {T : Type} (now : ℕ) (cache : Cache T) (key : String) :
    Option T × Cache T :=
  match cache key with
  | none => (none, cache)
  | some entry =>
      if entry.expiresAt < now then
        (none, fun k => if k = key then none else cache k)
      else (some entry.payload, cache)

/-- `writeCache`: skip when the TTL is zero (the source skips `ttl <= 0`;
TTLs are naturals here), else store with `expiresAt = now + ttl`. -/
def writeCache {T : Type} (now : ℕ) (cache : Cache T) (key : String) (payload : T)
    (ttlMs : ℕ) : Cache T :=
  if ttlMs = 0 then cache
  else fun k => if k = key then some ⟨now + ttlMs, payload⟩ else cache k

/-- The body of one upstream HTTP response: either the text failed to
parse as JSON, or it parsed to the envelope
`(status, data, message?, code?)`. -/
inductive BodyOutcome (T : Type) where
  | parseFail (msg : String) : BodyOutcome T
  | envelope (status : String) (data : T) (message code : Option String) : BodyOutcome T

/-- One upstream HTTP response as observed by `request`. -/
structure UpstreamResponse (T : Type) where
  httpOk : Bool
  httpStatus : ℕ
  body : BodyOutcome T

/-- The outcome of one `request` call: the result, the cache afterwards,
and whether an upstream HTTP call was performed. -/
structure RequestResult (T : Type) where
  result : Except MstError T
  cache : Cache T
  calledUpstream : Bool

/-- `MyShipTrackingClient.request`: serve a live cache entry without any
network call when `cacheMs > 0`; otherwise perform the (single) upstream
call, fail on JSON parse errors and on non-success envelopes carrying the
upstream code/message when available, and cache successful data when
`cacheMs > 0`.  Cached payloads at every call site are arrays or objects,
hence truthy, so a cache hit always short-circuits. -/
def request {T : Type} (now : ℕ) (path : String) (params : List (String × Option String))
    (cacheMs : ℕ) (upstream : UpstreamResponse T) (cache : Cache T) : RequestResult T :=
  let normalizedParams := sanitizeParams params
  let cacheKey := buildCacheKey path normalizedParams
  let looked := if 0 < cacheMs then readCache now cache cacheKey else (none, cache)
  match looked.1 with
  | some payload => ⟨.ok payload, looked.2, false⟩
  | none =>
      match upstream.body with
      | .parseFail msg => ⟨.error (.parseError path msg), looked.2, true⟩
      | .envelope status data message code =>
          if upstream.httpOk = false ∨ status ≠ "success" then
            ⟨.error (.requestFailed (code.getD (toString upstream.httpStatus))
                      (message.getD "Unknown error")), looked.2, true⟩
          else
            ⟨.ok data,
             if 0 < cacheMs then writeCache now looked.2 cacheKey data cacheMs else looked.2,
             true⟩

/-! ### Port mode (`src/unnamed/part_003`) -/

/-- The resolved port reference (`portId?`, `unloco?`, `name?`). -/
structure PortRef where
  portId : Option JsNum
  unloco : Option String
  name : Option String
deriving DecidableEq

/-- Does the trimmed input match `^\d+$`? -/
def isAllDigits (s : String) : Bool :=
  s ≠ "" && s.toList.all Char.isDigit

/-- Does the trimmed input match `^[A-Za-z]{5}$`?  (ASCII letters.) -/
def isFiveLetters (s : String) : Bool :=
  s.toList.length = 5 && s.toList.all (fun c => ('A' ≤ c && c ≤ 'Z') || ('a' ≤ c && c ≤ 'z'))

/-- `resolvePortIdentifier`: blank input resolves to nothing; all-digit
input is a raw port id; a 5-letter code is an uppercased UN/LOCODE; any
other input runs a port-name search (`searchPorts` goes through `request`,
modelled by the `search` oracle) and takes the first hit, or nothing when
the search comes back empty. -/
def resolvePortIdentifier (search : String → Except MstError (List MstPortSearchResult))
    (rawInput : Option String) : Except MstError (Option PortRef) :=
  match rawInput with
  | none => .ok none
  | some raw =>
      let trimmed := jsTrim raw
      if trimmed = "" then .ok none
      else if isAllDigits trimmed then
        .ok (some ⟨some (jsNumber trimmed), none, some trimmed⟩)
      else if isFiveLetters trimmed then
        .ok (some ⟨none, some (jsToUpper trimmed), some (jsToUpper trimmed)⟩)
      else do
        let hits ← search trimmed
        match hits with
        | [] => pure none
        | m :: _ => pure (some ⟨some (.fin m.port_id), some m.unloco, some m.name⟩)

/-- `mstClient.getVesselsInPort`: requires a truthy `portId` or `unloco`,
then fetches the in-port listing (through `request`, modelled by the
`inport` oracle). -/
def mstGetVesselsInPort (inport : Except MstError (List MstPortVessel)) (ref : PortRef) :
    Except MstError (List MstPortVessel) :=
  if !jsTruthyNum ref.portId && !jsTruthyStr ref.unloco then
    .error (.clientError "portId or unloco must be provided for Vessels In Port")
  else inport

/-- Overwriting insert into the status map. -/
def mapSet (m : List (String × ShipSummary)) (key : String) (value : ShipSummary) :
    List (String × ShipSummary) :=
  (m.filter (fun p => p.1 ≠ key)) ++ [(key, value)]

/-- The fallible part of `getVesselsInPort` before the final catch. -/
def getVesselsInPortFlow (search : String → Except MstError (List MstPortSearchResult))
    (inport : Except MstError (List MstPortVessel))
    (bulk : List String → Except MstError (List MstZoneVessel))
    (now : ℕ) (shipPort : Option String) : Except MstError (List ShipSummary) := do
  let portReference? ← resolvePortIdentifier search shipPort
  match portReference? with
  | none => pure []
  | some portReference =>
      let vesselsInPort ← mstGetVesselsInPort inport portReference
      let withMmsi := (vesselsInPort.filter (fun v => jsTruthyInt v.mmsi)).take MAX_PORT_VESSELS
      if withMmsi.length = 0 then pure []
      else do
        let mmsiList := withMmsi.map (fun v => toString (v.mmsi.getD 0))
        let statuses ← bulk mmsiList
        let statusMap := statuses.foldl
          (fun m status =>
            if jsTruthyInt status.mmsi then
              mapSet m (toString (status.mmsi.getD 0)) (mapZoneVesselToShip now status)
            else m) []
        let merged := withMmsi.filterMap (fun vessel =>
          if jsTruthyInt vessel.mmsi then
            match statusMap.lookup (toString (vessel.mmsi.getD 0)) with
            | none => none
            | some base => some { base with
                type := vessel.vessel_type.getD base.type
                country := vessel.flag.getD base.country
                destination := base.destination
                port_current := portReference.name.getD base.port_current }
          else none)
        pure merged

/-- `getVesselsInPort`: the flow above with the final `.catch` that turns
any failure into an empty result list. -/
def getVesselsInPort (search : String → Except MstError (List MstPortSearchResult))
    (inport : Except MstError (List MstPortVessel))
    (bulk : List String → Except MstError (List MstZoneVessel))
    (now : ℕ) (shipPort : Option String) : List ShipSummary :=
  match getVesselsInPortFlow search inport bulk now shipPort with
  | .ok ships => ships
  | .error _ => []

/-! ### Concrete scenario data used by witnesses -/

/-- Two upstream vessels sharing one mmsi (duplicate id across a batch). -/
def sampleZoneResponses : ℕ → List MstZoneVessel := fun _ =>
  [⟨"A", some 7, none, none, .fin 1, .fin 2, none, none, none, "t"⟩,
   ⟨"B", some 7, none, none, .fin 3, .fin 4, none, none, none, "u"⟩]

/-- The normalized image of the first sample vessel. -/
def sampleShipA : ShipSummary :=
  ⟨"A", "7", .fin 1, .fin 2, "t", "7", "", "", 0, "", "", "", "", "", "",
   none, none, "myshiptracking.com"⟩

/-- An upstream oracle answering every zone query with 200 distinct-mmsi
vessels (enough to hit the result cap in one batch). -/
def capZoneResponses : ℕ → List MstZoneVessel := fun _ =>
  (List.range 200).map (fun i =>
    ⟨"", some ((i : ℤ) + 1), none, none, .fin 0, .fin 0, none, none, none, ""⟩)

/-! ### Helper lemmas -/

/-- A nonempty join of two nonempty-filtered strings is nonempty. -/
lemma buildFallback_ne_empty {name timestamp : String}
    (h : name ≠ "" ∨ timestamp ≠ "") : buildFallback name timestamp ≠ "" := by
  unfold buildFallback
  by_cases hn : name = "" <;> by_cases ht : timestamp = "" <;> simp [hn, ht] at h ⊢
  intro hc
  have hlen := congrArg String.length hc
  rw [String.length_append, String.length_append] at hlen
  have h1 : String.length "-" = 1 := rfl
  have h0 : String.length "" = 0 := rfl
  rw [h1, h0] at hlen
  omega

/-- `buildShipId` does not depend on the clock when the record carries a
truthy mmsi or imo, or a nonempty name or timestamp. -/
lemma buildShipId_now_independent {mmsi imo : Option ℤ} {name timestamp : String}
    (h : jsTruthyInt mmsi = true ∨ jsTruthyInt imo = true ∨ name ≠ "" ∨ timestamp ≠ "")
    (n1 n2 : ℕ) :
    buildShipId n1 mmsi imo name timestamp = buildShipId n2 mmsi imo name timestamp := by
  unfold buildShipId
  by_cases hm : jsTruthyInt mmsi = true
  · simp [hm]
  · by_cases hi : jsTruthyInt imo = true
    · simp [hm, hi]
    · have hne : buildFallback name timestamp ≠ "" := by
        apply buildFallback_ne_empty
        rcases h with h | h | h | h
        · exact absurd h hm
        · exact absurd h hi
        · exact Or.inl h
        · exact Or.inr h
      simp [hm, hi, hne]

/-- Clamping is idempotent. -/
lemma clampNumber_idem {lo hi : ℚ} (hlohi : lo ≤ hi) (v : ℚ) :
    clampNumber (clampNumber v lo hi) lo hi = clampNumber v lo hi := by
  unfold clampNumber
  have h1 : lo ≤ Min.min (Max.max v lo) hi := le_min (le_max_right v lo) hlohi
  rw [max_eq_left h1, min_eq_left (min_le_right _ _)]

/-- Values at or above the upper bound clamp to the upper bound. -/
lemma clampNumber_high {lo hi v : ℚ} (hlohi : lo ≤ hi) (h : hi ≤ v) :
    clampNumber v lo hi = hi := by
  unfold clampNumber
  rw [max_eq_left (hlohi.trans h), min_eq_right h]

/-- Values at or below the lower bound clamp to the lower bound. -/
lemma clampNumber_low {lo hi v : ℚ} (hlohi : lo ≤ hi) (h : v ≤ lo) :
    clampNumber v lo hi = lo := by
  unfold clampNumber
  rw [max_eq_right h, min_eq_left hlohi]

/-- Every zone query issued by the area loop carries the loop's
minutesBack value. -/
lemma areaLoop_minutesBack (now : ℕ) (responses : ℕ → List MstZoneVessel) (mb : ℤ) :
    ∀ (boxes : List BoundingBox) (dedup : List ShipSummary) (queries : List ZoneQuery),
      (∀ zq ∈ queries, zq.minutesBack = mb) →
      ∀ zq ∈ (areaLoop now responses mb boxes dedup queries).2, zq.minutesBack = mb := by
  intro boxes
  induction boxes with
  | nil => intro dedup queries h; simpa [areaLoop] using h
  | cons box rest ih =>
      intro dedup queries h
      rw [areaLoop]
      have hq' : ∀ zq ∈ queries ++
          [(⟨box.minLat, box.maxLat, box.minLon, box.maxLon, mb, "simple"⟩ : ZoneQuery)],
          zq.minutesBack = mb := by
        intro zq hzq
        rcases List.mem_append.mp hzq with hzq | hzq
        · exact h zq hzq
        · rcases List.mem_singleton.mp hzq with rfl
          rfl
      split
      · exact hq'
      · exact ih _ _ hq'

/-! ### Claim theorems -/

/-- C5: a supplied minutesBack value is rounded to the nearest integer and
clamped into [60, 720] (45 becomes 60); an absent (or NaN) value uses the
configured default; and the resulting value is the one carried by every
zone query issued by the area and near-me planners. -/
theorem C5_minutes_back_round_clamp :
    (∀ q : ℚ, formatMinutesBack (some (.fin q)) = clampInt (jsRound q) 60 720) ∧
    formatMinutesBack none = DEFAULT_MINUTES_BACK ∧
    formatMinutesBack (some .nan) = DEFAULT_MINUTES_BACK ∧
    formatMinutesBack (some (.fin 45)) = 60 ∧
    (∀ (now : ℕ) (responses : ℕ → List MstZoneVessel) (expression : String)
        (mbOpt : Option JsNum),
      ∀ zq ∈ (fetchVesselsInArea now responses expression mbOpt).2,
        zq.minutesBack = formatMinutesBack mbOpt) ∧
    (∀ (now : ℕ) (cosDeg : ℚ → ℚ) (response : List MstZoneVessel)
        (lat lon distance : ℚ) (mbOpt : Option JsNum),
      ∀ zq ∈ (fetchVesselsNearMe now cosDeg response lat lon distance mbOpt).2,
        zq.minutesBack = formatMinutesBack mbOpt) := by
  refine ⟨?_, rfl, rfl, by with_unfolding_all decide, ?_, ?_⟩
  · intro q
    by_cases hq : q = 0
    · subst hq
      show DEFAULT_MINUTES_BACK = clampInt (jsRound 0) 60 720
      have h0 : jsRound 0 = 0 := by
        unfold jsRound
        norm_num
      rw [h0]
      with_unfolding_all decide
    · simp [formatMinutesBack, hq]
  · intro now responses expression mbOpt zq hzq
    unfold fetchVesselsInArea at hzq
    rcases htok : tokenizeAreaExpression expression with e | boxes
    · rw [htok] at hzq
      simp at hzq
    · rw [htok] at hzq
      simp only at hzq
      exact areaLoop_minutesBack now responses (formatMinutesBack mbOpt) boxes [] []
        (by intro zq h; simp at h) zq hzq
  · intro now cosDeg response lat lon distance mbOpt zq hzq
    unfold fetchVesselsNearMe at hzq
    simp only [List.mem_singleton] at hzq
    subst hzq
    rfl

/-- C5 witness: concrete instances of the round-and-clamp equation and of
the minutesBack value carried by a concrete area run. -/
theorem C5_witness :
    formatMinutesBack (some (.fin 45)) = clampInt (jsRound 45) 60 720 ∧
    (∀ zq ∈ (fetchVesselsInArea 0 (fun _ => []) "" none).2,
      zq.minutesBack = formatMinutesBack none) ∧
    (fetchVesselsInArea 0 (fun _ => []) "" none).2 =
      [⟨34, 42, -6, 15, 60, "simple"⟩] :=
  ⟨C5_minutes_back_round_clamp.1 45,
   C5_minutes_back_round_clamp.2.2.2.2.1 0 (fun _ => []) "" none,
   by with_unfolding_all decide⟩

/-- C9 counterexample: the claim says two applications of the normalizer to
the same record always yield equal ShipSummary values including equal ids,
but a record with no mmsi, no imo, an empty name and an empty timestamp
falls through to the time-based synthetic id `ship-(Date.now())`, so two
applications at different instants differ. -/
theorem C9_counterexample :
    mapZoneVesselToShip 0 ⟨"", none, none, none, .fin 0, .fin 0, none, none, none, ""⟩ ≠
      mapZoneVesselToShip 1 ⟨"", none, none, none, .fin 0, .fin 0, none, none, none, ""⟩ := by
  with_unfolding_all decide

/-- C9 (amended): the normalizers are pure functions of the record and the
clock; for every record carrying a truthy mmsi or imo, or a nonempty name
or timestamp, the result (id included) does not depend on the clock, so
two applications to the same such record are equal. -/
theorem C9_normalizer_deterministic :
    (∀ (v : MstZoneVessel) (n1 n2 : ℕ),
      (jsTruthyInt v.mmsi = true ∨ jsTruthyInt v.imo = true ∨
        v.vessel_name ≠ "" ∨ v.received ≠ "") →
      mapZoneVesselToShip n1 v = mapZoneVesselToShip n2 v) ∧
    (∀ (p : MstPortVessel) (n1 n2 : ℕ),
      (jsTruthyInt p.mmsi = true ∨ jsTruthyInt p.imo = true ∨
        p.name ≠ "" ∨ p.arrived.getD "" ≠ "") →
      mapPortVesselToShip n1 p = mapPortVesselToShip n2 p) := by
  constructor
  · intro v n1 n2 h
    unfold mapZoneVesselToShip
    rw [buildShipId_now_independent h n1 n2]
  · intro p n1 n2 h
    unfold mapPortVesselToShip
    rw [buildShipId_now_independent h n1 n2]

/-- C9 witness: a record with a truthy mmsi normalizes identically at two
different clock readings. -/
theorem C9_witness :
    (jsTruthyInt (some (211234560 : ℤ)) = true ∨
      jsTruthyInt (none : Option ℤ) = true ∨ "EVER GIVEN" ≠ "" ∨ "2024-01-01" ≠ "") ∧
    mapZoneVesselToShip 0
        ⟨"EVER GIVEN", some 211234560, none, some 70, .fin 30, .fin 32, some 180, some 12,
          some "underway", "2024-01-01"⟩ =
      mapZoneVesselToShip 999
        ⟨"EVER GIVEN", some 211234560, none, some 70, .fin 30, .fin 32, some 180, some 12,
          some "underway", "2024-01-01"⟩ :=
  ⟨by with_unfolding_all decide,
   C9_normalizer_deterministic.1 _ 0 999 (by with_unfolding_all decide)⟩

/-- C10: the caller-supplied near-me radius is silently clamped into
[1, 50] nautical miles before the box is derived: the whole call result
equals that of the clamped radius, a radius at or above 50 behaves like
50, and a radius at or below 1 behaves like 1 — with no error surfaced. -/
theorem C10_radius_clamped :
    (∀ (now : ℕ) (cosDeg : ℚ → ℚ) (response : List MstZoneVessel)
        (lat lon distance : ℚ) (mbOpt : Option JsNum),
      fetchVesselsNearMe now cosDeg response lat lon distance mbOpt =
        fetchVesselsNearMe now cosDeg response lat lon (clampNumber distance 1 50) mbOpt) ∧
    (∀ (now : ℕ) (cosDeg : ℚ → ℚ) (response : List MstZoneVessel)
        (lat lon distance : ℚ) (mbOpt : Option JsNum), 50 ≤ distance →
      fetchVesselsNearMe now cosDeg response lat lon distance mbOpt =
        fetchVesselsNearMe now cosDeg response lat lon 50 mbOpt) ∧
    (∀ (now : ℕ) (cosDeg : ℚ → ℚ) (response : List MstZoneVessel)
        (lat lon distance : ℚ) (mbOpt : Option JsNum), distance ≤ 1 →
      fetchVesselsNearMe now cosDeg response lat lon distance mbOpt =
        fetchVesselsNearMe now cosDeg response lat lon 1 mbOpt) := by
  have key : ∀ (now : ℕ) (cosDeg : ℚ → ℚ) (response : List MstZoneVessel)
      (lat lon d1 d2 : ℚ) (mbOpt : Option JsNum),
      clampNumber d1 1 50 = clampNumber d2 1 50 →
      fetchVesselsNearMe now cosDeg response lat lon d1 mbOpt =
        fetchVesselsNearMe now cosDeg response lat lon d2 mbOpt := by
    intro now cosDeg response lat lon d1 d2 mbOpt h
    unfold fetchVesselsNearMe
    rw [h]
  refine ⟨?_, ?_, ?_⟩
  · intro now cosDeg response lat lon distance mbOpt
    exact key _ _ _ _ _ _ _ _ (clampNumber_idem (by norm_num) distance).symm
  · intro now cosDeg response lat lon distance mbOpt h
    refine key _ _ _ _ _ _ _ _ ?_
    rw [clampNumber_high (by norm_num) h, clampNumber_high (by norm_num) (le_refl 50)]
  · intro now cosDeg response lat lon distance mbOpt h
    refine key _ _ _ _ _ _ _ _ ?_
    rw [clampNumber_low (by norm_num) h, clampNumber_low (by norm_num) (le_refl 1)]

/-- C10 witness: a 100 nm radius behaves exactly like 50 nm, and a half-nm
radius exactly like 1 nm. -/
theorem C10_witness :
    ((50 : ℚ) ≤ 100 ∧
      fetchVesselsNearMe 0 (fun _ => 1) [] 0 0 100 none =
        fetchVesselsNearMe 0 (fun _ => 1) [] 0 0 50 none) ∧
    ((1 / 2 : ℚ) ≤ 1 ∧
      fetchVesselsNearMe 0 (fun _ => 1) [] 0 0 (1 / 2) none =
        fetchVesselsNearMe 0 (fun _ => 1) [] 0 0 1 none) :=
  ⟨⟨by norm_num, C10_radius_clamped.2.1 0 (fun _ => 1) [] 0 0 100 none (by norm_num)⟩,
   ⟨by norm_num, C10_radius_clamped.2.2 0 (fun _ => 1) [] 0 0 (1 / 2) none (by norm_num)⟩⟩

/-- C7 counterexample: the claim bounds the longitude half-span by the
caller-supplied radius over (60 times 0.1), but a radius below 1 nm is
clamped up to 1 nm first.  At a latitude whose cosine is 0.0175 (about
89 degrees, below the 0.1 floor) and radius 0.5 nm, the derived half-span
is 1/6 degree, which exceeds 0.5/(60*0.1) = 1/12 degree. -/
theorem C7_counterexample :
    ∃ zq ∈ (fetchVesselsNearMe 0 (fun _ => 7 / 400) [] 89 0 (1 / 2) none).2,
      (1 / 2 : ℚ) / (60 * (1 / 10)) < (zq.maxLon - zq.minLon) / 2 := by
  have hclamp : clampNumber (1 / 2) 1 50 = 1 := by
    unfold clampNumber
    rw [max_eq_right (by norm_num), min_eq_left (by norm_num)]
  have hq : (fetchVesselsNearMe 0 (fun _ => 7 / 400) [] 89 0 (1 / 2) none).2 =
      [⟨89 - 1 / 60, 89 + 1 / 60, 0 - 1 / 6, 0 + 1 / 6, 60, "simple"⟩] := by
    unfold fetchVesselsNearMe
    rw [hclamp]
    unfold nauticalMilesToLatDelta nauticalMilesToLonDelta
    rw [show Max.max ((fun _ : ℚ => (7 : ℚ) / 400) 89) (1 / 10) = 1 / 10 from
      max_eq_right (by norm_num)]
    norm_num [formatMinutesBack, DEFAULT_MINUTES_BACK]
  rw [hq]
  refine ⟨_, List.mem_singleton.mpr rfl, ?_⟩
  norm_num

/-- C7 (amended): with a runtime cosine satisfying cos 0 = 1, a near-me
query at latitude 0 derives a box whose longitude span equals its latitude
span for any radius; for any latitude the effective cosine factor is at
least 0.1, so the longitude half-span never exceeds the clamped radius
(radius clamped into [1, 50]) divided by (60*0.1); and exactly one zone
query is issued per near-me call. -/
theorem C7_near_me_geometry :
    ∀ cosDeg : ℚ → ℚ, cosDeg 0 = 1 →
      (∀ (now : ℕ) (response : List MstZoneVessel) (lon distance : ℚ)
          (mbOpt : Option JsNum),
        ∀ zq ∈ (fetchVesselsNearMe now cosDeg response 0 lon distance mbOpt).2,
          zq.maxLon - zq.minLon = zq.maxLat - zq.minLat) ∧
      (∀ lat : ℚ, (1 : ℚ) / 10 ≤ Max.max (cosDeg lat) (1 / 10)) ∧
      (∀ distance lat : ℚ,
        nauticalMilesToLonDelta cosDeg (clampNumber distance 1 50) lat ≤
          clampNumber distance 1 50 / (60 * (1 / 10))) ∧
      (∀ (now : ℕ) (response : List MstZoneVessel) (lat lon distance : ℚ)
          (mbOpt : Option JsNum),
        ((fetchVesselsNearMe now cosDeg response lat lon distance mbOpt).2).length = 1 ∧
        ∀ zq ∈ (fetchVesselsNearMe now cosDeg response lat lon distance mbOpt).2,
          zq.maxLon - zq.minLon =
            2 * nauticalMilesToLonDelta cosDeg (clampNumber distance 1 50) lat) := by
  intro cosDeg h0
  have hclamp_ge : ∀ distance : ℚ, (1 : ℚ) ≤ clampNumber distance 1 50 := by
    intro distance
    unfold clampNumber
    exact le_min (le_max_right distance 1) (by norm_num)
  refine ⟨?_, ?_, ?_, ?_⟩
  · intro now response lon distance mbOpt zq hzq
    unfold fetchVesselsNearMe at hzq
    simp only [List.mem_singleton] at hzq
    subst hzq
    dsimp only
    unfold nauticalMilesToLonDelta nauticalMilesToLatDelta
    rw [h0]
    have : Max.max (1 : ℚ) (1 / 10) = 1 := max_eq_left (by norm_num)
    rw [this]
    ring
  · intro lat
    exact le_max_right _ _
  · intro distance lat
    unfold nauticalMilesToLonDelta
    have h6 : (60 : ℚ) * (1 / 10) = 6 := by norm_num
    rw [h6]
    apply div_le_div_of_nonneg_left (by linarith [hclamp_ge distance]) (by norm_num)
    have := le_max_right (cosDeg lat) ((1 : ℚ) / 10)
    linarith
  · intro now response lat lon distance mbOpt
    constructor
    · rfl
    · intro zq hzq
      unfold fetchVesselsNearMe at hzq
      simp only [List.mem_singleton] at hzq
      subst hzq
      dsimp only
      ring

/-- C7 witness: at latitude 0 with the runtime cosine modelled as cos 0 = 1,
the single issued query has equal longitude and latitude spans, and the
clamped-radius bound holds at radius 5, latitude 89. -/
theorem C7_witness :
    ((1 : ℚ) = 1) ∧
    (∀ zq ∈ (fetchVesselsNearMe 0 (fun _ => 1) [] 0 0 5 none).2,
      zq.maxLon - zq.minLon = zq.maxLat - zq.minLat) ∧
    nauticalMilesToLonDelta (fun _ => 1) (clampNumber 5 1 50) 89 ≤
      clampNumber 5 1 50 / (60 * (1 / 10)) ∧
    ((fetchVesselsNearMe 0 (fun _ => 1) [] 89 0 5 none).2).length = 1 :=
  ⟨rfl,
   (C7_near_me_geometry (fun _ => 1) rfl).1 0 [] 0 5 none,
   (C7_near_me_geometry (fun _ => 1) rfl).2.2.1 5 89,
   ((C7_near_me_geometry (fun _ => 1) rfl).2.2.2 0 [] 89 0 5 none).1⟩

/-- If some member of the list fails to normalize, the whole traversal
fails (the source throws out of `.map(normalizeBox)`). -/
lemma mapM_error_of_mem {l : List BoundingBox} {b : BoundingBox} (hb : b ∈ l)
    {e : AreaError} (he : normalizeBox b = .error e) :
    ∃ e', l.mapM normalizeBox = .error e' := by
  induction l with
  | nil => cases hb
  | cons hd tl ih =>
      rcases List.mem_cons.mp hb with rfl | hb'
      · exact ⟨e, by rw [List.mapM_cons, he]; rfl⟩
      · rcases hnorm : normalizeBox hd with e2 | v
        · exact ⟨e2, by rw [List.mapM_cons, hnorm]; rfl⟩
        · rcases ih hb' with ⟨e', he'⟩
          refine ⟨e', ?_⟩
          rw [List.mapM_cons, hnorm]
          show (List.mapM normalizeBox tl >>= fun xs => pure (v :: xs)) = Except.error e'
          rw [he']
          rfl

/-- An oversized box makes `normalizeBox` fail with both spans in the
error. -/
lemma normalizeBox_oversized {b : BoundingBox}
    (h : MAX_LAT_SPAN < spanLat b ∨ MAX_LON_SPAN < spanLon b) :
    normalizeBox b = .error (.boxTooLarge (spanLat b) (spanLon b)) := by
  have hlat : |Max.max b.minLat b.maxLat - Min.min b.minLat b.maxLat| = spanLat b :=
    abs_of_nonneg (sub_nonneg.mpr min_le_max)
  have hlon : |Max.max b.minLon b.maxLon - Min.min b.minLon b.maxLon| = spanLon b :=
    abs_of_nonneg (sub_nonneg.mpr min_le_max)
  simp only [normalizeBox, hlat, hlon]
  rw [if_pos h]

/-- C2: if any token of the area expression parses to a box whose
latitude or longitude span exceeds the configured maximum, the whole
`fetchVesselsInArea` call fails with the descriptive box-too-large error
and issues zero zone queries (zero upstream calls). -/
theorem C2_oversized_box_rejects (now : ℕ) (responses : ℕ → List MstZoneVessel)
    (expression : String) (mbOpt : Option JsNum) (token : String) (box : BoundingBox)
    (htok : token ∈ tokenList expression)
    (hparse : parseBoundingBoxToken token = some box)
    (hbig : MAX_LAT_SPAN < spanLat box ∨ MAX_LON_SPAN < spanLon box) :
    ∃ latSpan lonSpan,
      fetchVesselsInArea now responses expression mbOpt =
        (.error (.boxTooLarge latSpan lonSpan), []) := by
  have hne : expression ≠ "" := by
    intro h
    subst h
    have hnil : tokenList "" = [] := by with_unfolding_all decide
    rw [hnil] at htok
    cases htok
  have hmem : box ∈ (tokenList expression).filterMap parseBoundingBoxToken :=
    List.mem_filterMap.mpr ⟨token, htok, hparse⟩
  rcases mapM_error_of_mem hmem (normalizeBox_oversized hbig) with ⟨e', he'⟩
  cases e' with
  | boxTooLarge ls lo =>
      refine ⟨ls, lo, ?_⟩
      unfold fetchVesselsInArea tokenizeAreaExpression
      rw [if_neg hne, he']
      rfl

/-- C2 witness: the token `bbox:0|0|50|0` parses to a box with latitude
span 50 and the whole area call on it rejects with zero zone queries. -/
theorem C2_witness :
    ("bbox:0|0|50|0" ∈ tokenList "bbox:0|0|50|0") ∧
    parseBoundingBoxToken "bbox:0|0|50|0" = some ⟨0, 50, 0, 0⟩ ∧
    (MAX_LAT_SPAN < spanLat ⟨0, 50, 0, 0⟩ ∨ MAX_LON_SPAN < spanLon ⟨0, 50, 0, 0⟩) ∧
    ∃ latSpan lonSpan,
      fetchVesselsInArea 0 (fun _ => []) "bbox:0|0|50|0" none =
        (.error (.boxTooLarge latSpan lonSpan), []) :=
  ⟨by with_unfolding_all decide, by with_unfolding_all decide,
   by with_unfolding_all decide,
   C2_oversized_box_rejects 0 (fun _ => []) "bbox:0|0|50|0" none "bbox:0|0|50|0" ⟨0, 50, 0, 0⟩
     (by with_unfolding_all decide) (by with_unfolding_all decide)
     (by with_unfolding_all decide)⟩

/-- A decimal digit is not whitespace. -/
lemma char_digit_not_ws {c : Char} (h : c.isDigit = true) : c.isWhitespace = false := by
  by_contra hw
  rw [Bool.not_eq_false] at hw
  simp only [Char.isWhitespace, Bool.or_eq_true, decide_eq_true_eq] at hw
  rcases hw with ((rfl | rfl) | rfl) | rfl <;> exact absurd h (by decide)

/-- An ASCII letter is not a decimal digit. -/
lemma char_letter_not_digit {c : Char}
    (h : (('A' ≤ c && c ≤ 'Z') || ('a' ≤ c && c ≤ 'z')) = true) : c.isDigit = false := by
  simp only [Bool.or_eq_true, Bool.and_eq_true, decide_eq_true_eq] at h
  have h57 : ¬ c.val ≤ 57 := by
    intro hc
    have hc' : c.val.toNat ≤ 57 := hc
    rcases h with ⟨h1, _⟩ | ⟨h1, _⟩
    · rw [Char.le_def] at h1
      have h1' : (65 : ℕ) ≤ c.val.toNat := h1
      omega
    · rw [Char.le_def] at h1
      have h1' : (97 : ℕ) ≤ c.val.toNat := h1
      omega
  simp [Char.isDigit, h57]

/-- Dropping by a predicate that holds nowhere is the identity. -/
lemma dropWhile_all_false {p : Char → Bool} {l : List Char}
    (h : ∀ c ∈ l, p c = false) : l.dropWhile p = l := by
  cases l with
  | nil => rfl
  | cons c cs =>
      rw [List.dropWhile_cons, h c (List.mem_cons_self c cs)]
      simp

/-- Trimming a string with no whitespace is the identity. -/
lemma trimChars_eq_self {l : List Char} (h : ∀ c ∈ l, c.isWhitespace = false) :
    trimChars l = l := by
  unfold trimChars
  rw [dropWhile_all_false h,
    dropWhile_all_false (fun c hc => h c (List.mem_reverse.mp hc)),
    List.reverse_reverse]

/-- `Number(...)` maps an all-digit string to its finite decimal value. -/
lemma jsNumber_digits {s : String} (h : isAllDigits s = true) :
    jsNumber s = .fin (digitsToNat s.toList) := by
  simp only [isAllDigits, Bool.and_eq_true, decide_eq_true_eq, List.all_eq_true] at h
  obtain ⟨hne, hall⟩ := h
  have hlistne : s.toList ≠ [] := by
    intro hnil
    apply hne
    cases s with
    | mk data =>
        simp only [String.toList] at hnil
        rw [hnil]
  have htrim : trimChars s.toList = s.toList :=
    trimChars_eq_self (fun c hc => char_digit_not_ws (hall c hc))
  unfold jsNumber
  rw [htrim, if_neg hlistne]
  rcases hl : s.toList with _ | ⟨c, cs⟩
  · exact absurd hl hlistne
  · have hc : c.isDigit = true := hall c (by rw [hl]; exact List.mem_cons_self c cs)
    have hp : c ≠ '+' := by
      intro hcp
      subst hcp
      exact absurd hc (by decide)
    have hm : c ≠ '-' := by
      intro hcm
      subst hcm
      exact absurd hc (by decide)
    have hsign : parseSign (c :: cs) = (false, c :: cs) := by
      show (if c = '+' then ((false : Bool), cs)
        else if c = '-' then (true, cs) else (false, c :: cs)) = (false, c :: cs)
      rw [if_neg hp, if_neg hm]
    have hspan : (c :: cs).span Char.isDigit = (c :: cs, []) := by
      rw [List.span_eq_take_drop]
      rw [List.takeWhile_eq_self_iff.mpr (by intro a ha; exact hall a (hl ▸ ha)),
        List.dropWhile_eq_nil_iff.mpr (by intro a ha; exact hall a (hl ▸ ha))]
    have hbody : parseNumBody (c :: cs) = some ((digitsToNat (c :: cs) : ℚ)) := by
      unfold parseNumBody
      rw [hspan]
      dsimp only
      rw [show parseFrac [] = ([], []) from rfl]
      dsimp only
      rw [if_neg (by simp)]
      rw [show parseExp [] = some 0 from rfl]
      norm_num [digitsToNat]
    rw [hsign]
    dsimp only
    rw [hbody]
    rfl

/-- C6: port identifier resolution — an all-digit input resolves to its
numeric port id; an input of exactly five letters resolves to the
uppercased UN/LOCODE; any other nonempty input runs a port-name search and
uses its first hit (nothing when the search is empty); and whenever
resolution yields nothing, `getVesselsInPort` returns an empty list, not
an error. -/
theorem C6_port_resolution :
    (∀ (search : String → Except MstError (List MstPortSearchResult)) (s : String),
      isAllDigits (jsTrim s) = true →
      resolvePortIdentifier search (some s) =
        .ok (some ⟨some (.fin (digitsToNat (jsTrim s).toList)), none, some (jsTrim s)⟩)) ∧
    (∀ (search : String → Except MstError (List MstPortSearchResult)) (s : String),
      isFiveLetters (jsTrim s) = true →
      resolvePortIdentifier search (some s) =
        .ok (some ⟨none, some (jsToUpper (jsTrim s)), some (jsToUpper (jsTrim s))⟩)) ∧
    (∀ (search : String → Except MstError (List MstPortSearchResult)) (s : String),
      jsTrim s ≠ "" → isAllDigits (jsTrim s) = false → isFiveLetters (jsTrim s) = false →
      (search (jsTrim s) = .ok [] → resolvePortIdentifier search (some s) = .ok none) ∧
      (∀ (m : MstPortSearchResult) (rest : List MstPortSearchResult),
        search (jsTrim s) = .ok (m :: rest) →
        resolvePortIdentifier search (some s) =
          .ok (some ⟨some (.fin m.port_id), some m.unloco, some m.name⟩))) ∧
    (∀ (search : String → Except MstError (List MstPortSearchResult))
        (inport : Except MstError (List MstPortVessel))
        (bulk : List String → Except MstError (List MstZoneVessel))
        (now : ℕ) (input : Option String),
      resolvePortIdentifier search input = .ok none →
      getVesselsInPort search inport bulk now input = []) := by
  refine ⟨?_, ?_, ?_, ?_⟩
  · intro search s h
    have hne : jsTrim s ≠ "" := by
      simp only [isAllDigits, Bool.and_eq_true, decide_eq_true_eq] at h
      exact h.1
    unfold resolvePortIdentifier
    dsimp only
    rw [if_neg hne, if_pos h, jsNumber_digits h]
  · intro search s h
    have hlen : (jsTrim s).toList.length = 5 := by
      simp only [isFiveLetters, Bool.and_eq_true, decide_eq_true_eq] at h
      exact h.1
    have hne : jsTrim s ≠ "" := by
      intro hempty
      rw [hempty] at hlen
      simp at hlen
    have hnotdig : isAllDigits (jsTrim s) = false := by
      simp only [isFiveLetters, Bool.and_eq_true, decide_eq_true_eq,
        List.all_eq_true] at h
      obtain ⟨h5, hletters⟩ := h
      rcases hl : (jsTrim s).toList with _ | ⟨c, cs⟩
      · rw [hl] at h5
        simp at h5
      · have hc := hletters c (by rw [hl]; exact List.mem_cons_self c cs)
        simp only [isAllDigits, Bool.and_eq_false_iff]
        right
        rw [hl]
        simp only [List.all_cons, Bool.and_eq_false_iff]
        left
        exact char_letter_not_digit hc
    unfold resolvePortIdentifier
    dsimp only
    rw [if_neg hne, if_neg (by rw [hnotdig]; exact Bool.false_ne_true), if_pos h]
  · intro search s hne hnotdig hnot5
    constructor
    · intro hsearch
      unfold resolvePortIdentifier
      dsimp only
      rw [if_neg hne, if_neg (by rw [hnotdig]; exact Bool.false_ne_true),
        if_neg (by rw [hnot5]; exact Bool.false_ne_true), hsearch]
      rfl
    · intro m rest hsearch
      unfold resolvePortIdentifier
      dsimp only
      rw [if_neg hne, if_neg (by rw [hnotdig]; exact Bool.false_ne_true),
        if_neg (by rw [hnot5]; exact Bool.false_ne_true), hsearch]
      rfl
  · intro search inport bulk now input hres
    unfold getVesselsInPort getVesselsInPortFlow
    rw [hres]
    rfl

set_option maxRecDepth 4000 in
/-- C6 witness: concrete resolutions — numeric `12345`, UN/LOCODE `DEHAM`,
name search `Hamburg` taking the first hit, and a blank input yielding an
empty vessel list. -/
theorem C6_witness :
    isAllDigits (jsTrim "12345") = true ∧
    resolvePortIdentifier (fun _ => .ok []) (some "12345") =
      .ok (some ⟨some (.fin (digitsToNat (jsTrim "12345").toList)), none,
        some (jsTrim "12345")⟩) ∧
    isFiveLetters (jsTrim "DEHAM") = true ∧
    resolvePortIdentifier (fun _ => .ok []) (some "DEHAM") =
      .ok (some ⟨none, some (jsToUpper (jsTrim "DEHAM")), some (jsToUpper (jsTrim "DEHAM"))⟩) ∧
    resolvePortIdentifier (fun _ => .ok [⟨834, "Hamburg Port", "DEHAM", "port", "DE"⟩])
        (some "Hamburg") =
      .ok (some ⟨some (.fin 834), some "DEHAM", some "Hamburg Port"⟩) ∧
    resolvePortIdentifier (fun _ => .ok []) (some " ") = .ok none ∧
    getVesselsInPort (fun _ => .ok []) (.ok []) (fun _ => .ok []) 0 (some " ") = [] :=
  ⟨by with_unfolding_all decide,
   C6_port_resolution.1 (fun _ => .ok []) "12345" (by with_unfolding_all decide),
   by with_unfolding_all decide,
   C6_port_resolution.2.1 (fun _ => .ok []) "DEHAM" (by with_unfolding_all decide),
   (C6_port_resolution.2.2.1 (fun _ => .ok [⟨834, "Hamburg Port", "DEHAM", "port", "DE"⟩])
       "Hamburg" (by with_unfolding_all decide) (by with_unfolding_all decide)
       (by with_unfolding_all decide)).2 ⟨834, "Hamburg Port", "DEHAM", "port", "DE"⟩ []
     rfl,
   by with_unfolding_all decide,
   C6_port_resolution.2.2.2 (fun _ => .ok []) (.ok []) (fun _ => .ok []) 0 (some " ")
     (by with_unfolding_all decide)⟩

/-- C8 counterexample: the claim says an upstream protocol failure is never
converted into an empty result, including for port-mode queries; but
`getVesselsInPort` ends in a catch-all that turns the failing in-port
request (here a 503 protocol failure) into an empty list instead of a
surfaced error. -/
theorem C8_counterexample :
    getVesselsInPort (fun _ => .ok []) (.error (.requestFailed "503" "upstream down"))
      (fun _ => .ok []) 0 (some "DEHAM") = [] := by
  with_unfolding_all decide

/-- C8 (amended): `request` surfaces a JSON parse failure, and a non-success
envelope, as a descriptive error carrying the upstream code/message when
available, with exactly one upstream attempt and no retry; but port-mode
`getVesselsInPort` catches any failure and returns an empty list instead. -/
theorem C8_protocol_failure_surfaced :
    (∀ (T : Type) (now : ℕ) (path : String) (params : List (String × Option String))
        (cacheMs : ℕ) (up : UpstreamResponse T) (cache : Cache T) (msg : String),
      up.body = .parseFail msg →
      (0 < cacheMs →
        (readCache now cache (buildCacheKey path (sanitizeParams params))).1 = none) →
      (request now path params cacheMs up cache).result = .error (.parseError path msg) ∧
      (request now path params cacheMs up cache).calledUpstream = true) ∧
    (∀ (T : Type) (now : ℕ) (path : String) (params : List (String × Option String))
        (cacheMs : ℕ) (up : UpstreamResponse T) (cache : Cache T)
        (status : String) (data : T) (message code : Option String),
      up.body = .envelope status data message code →
      (up.httpOk = false ∨ status ≠ "success") →
      (0 < cacheMs →
        (readCache now cache (buildCacheKey path (sanitizeParams params))).1 = none) →
      (request now path params cacheMs up cache).result =
        .error (.requestFailed (code.getD (toString up.httpStatus))
          (message.getD "Unknown error")) ∧
      (request now path params cacheMs up cache).calledUpstream = true) ∧
    (∀ (search : String → Except MstError (List MstPortSearchResult))
        (bulk : List String → Except MstError (List MstZoneVessel))
        (now : ℕ) (input : Option String) (e : MstError),
      getVesselsInPort search (.error e) bulk now input = []) := by
  refine ⟨?_, ?_, ?_⟩
  · intro T now path params cacheMs up cache msg hbody hmiss
    have hlooked : (if 0 < cacheMs then
        readCache now cache (buildCacheKey path (sanitizeParams params))
        else (none, cache)).1 = none := by
      by_cases h0 : 0 < cacheMs
      · rw [if_pos h0]
        exact hmiss h0
      · rw [if_neg h0]
    constructor <;>
      · simp only [request]
        rw [hlooked, hbody]
  · intro T now path params cacheMs up cache status data message code hbody hfail hmiss
    have hlooked : (if 0 < cacheMs then
        readCache now cache (buildCacheKey path (sanitizeParams params))
        else (none, cache)).1 = none := by
      by_cases h0 : 0 < cacheMs
      · rw [if_pos h0]
        exact hmiss h0
      · rw [if_neg h0]
    constructor <;>
      · simp only [request]
        rw [hlooked, hbody]
        simp only [if_pos hfail]
  · intro search bulk now input e
    have hia : ∀ ref : PortRef, ∃ err, mstGetVesselsInPort (Except.error e) ref = .error err := by
      intro ref
      unfold mstGetVesselsInPort
      split
      · exact ⟨_, rfl⟩
      · exact ⟨e, rfl⟩
    unfold getVesselsInPort getVesselsInPortFlow
    rcases hres : resolvePortIdentifier search input with e2 | ref?
    · rfl
    · rcases ref? with _ | ref
      · rfl
      · rcases hia ref with ⟨err, herr⟩
        dsimp only [Bind.bind, Except.bind]
        rw [herr]

/-- C8 witness: a parse failure and a non-success envelope each surface as
descriptive errors from a single upstream attempt, and a failing in-port
request yields an empty port result. -/
theorem C8_witness :
    ((⟨true, 200, .parseFail "bad json"⟩ : UpstreamResponse ℤ).body = .parseFail "bad json") ∧
    (request 0 "vessel" [("mmsi", some "123")] 0
        (⟨true, 200, .parseFail "bad json"⟩ : UpstreamResponse ℤ) (Cache.empty ℤ)).result =
      .error (.parseError "vessel" "bad json") ∧
    (request 0 "vessel" [("mmsi", some "123")] 0
        (⟨true, 200, .parseFail "bad json"⟩ : UpstreamResponse ℤ)
        (Cache.empty ℤ)).calledUpstream = true ∧
    (request 0 "vessel/zone" [] 300000
        (⟨false, 503, .envelope "error" (0 : ℤ) (some "quota exceeded") (some "429")⟩ :
          UpstreamResponse ℤ) (Cache.empty ℤ)).result =
      .error (.requestFailed "429" "quota exceeded") ∧
    getVesselsInPort (fun _ => .ok []) (.error (.requestFailed "503" "down"))
      (fun _ => .ok []) 5 (some "12345") = [] :=
  ⟨rfl,
   (C8_protocol_failure_surfaced.1 ℤ 0 "vessel" [("mmsi", some "123")] 0
      ⟨true, 200, .parseFail "bad json"⟩ (Cache.empty ℤ) "bad json" rfl
      (fun h0 => absurd h0 (by decide))).1,
   (C8_protocol_failure_surfaced.1 ℤ 0 "vessel" [("mmsi", some "123")] 0
      ⟨true, 200, .parseFail "bad json"⟩ (Cache.empty ℤ) "bad json" rfl
      (fun h0 => absurd h0 (by decide))).2,
   (C8_protocol_failure_surfaced.2.1 ℤ 0 "vessel/zone" [] 300000
      ⟨false, 503, .envelope "error" (0 : ℤ) (some "quota exceeded") (some "429")⟩
      (Cache.empty ℤ) "error" 0 (some "quota exceeded") (some "429") rfl
      (Or.inl rfl) (fun _ => rfl)).1,
   C8_protocol_failure_surfaced.2.2 (fun _ => .ok []) (fun _ => .ok []) 5 (some "12345")
     (.requestFailed "503" "down")⟩

/-- The cache key is invariant under reordering of the parameter list:
sorting makes the serialization canonical. -/
lemma buildCacheKey_perm (path : String) {l1 l2 : List (String × String)}
    (h : l1.Perm l2) : buildCacheKey path l1 = buildCacheKey path l2 := by
  unfold buildCacheKey
  have e : List.insertionSort pairLe l1 = List.insertionSort pairLe l2 :=
    List.eq_of_perm_of_sorted
      ((List.perm_insertionSort pairLe l1).trans
        (h.trans (List.perm_insertionSort pairLe l2).symm))
      (List.sorted_insertionSort pairLe l1) (List.sorted_insertionSort pairLe l2)
  rw [e]

/-- A successful `request` that actually went upstream stores the payload
under its cache key with expiry `now + cacheMs`. -/
lemma request_success_writes {T : Type} (now : ℕ) (path : String)
    (params : List (String × Option String)) (cacheMs : ℕ) (up : UpstreamResponse T)
    (cache : Cache T) (data : T) (h0 : 0 < cacheMs)
    (hcall : (request now path params cacheMs up cache).calledUpstream = true)
    (hok : (request now path params cacheMs up cache).result = .ok data) :
    (request now path params cacheMs up cache).cache
      (buildCacheKey path (sanitizeParams params)) = some ⟨now + cacheMs, data⟩ := by
  simp only [request, if_pos h0] at hcall hok ⊢
  rcases hlook : (readCache now cache (buildCacheKey path (sanitizeParams params))).1
    with _ | payload
  · rw [hlook] at hcall hok
    dsimp only at hcall hok ⊢
    rcases hbody : up.body with msg | ⟨status, d, message, code⟩ <;>
      rw [hbody] at hok <;> dsimp only at hok ⊢
    · simp at hok
    · by_cases hfail : up.httpOk = false ∨ status ≠ "success"
      · rw [if_pos hfail] at hok
        simp at hok
      · rw [if_neg hfail] at hok ⊢
        have hdata : d = data := by
          simpa using hok
        subst hdata
        dsimp only
        unfold writeCache
        rw [if_neg (Nat.pos_iff_ne_zero.mp h0)]
        simp
  · rw [hlook] at hcall
    dsimp only at hcall
    simp at hcall

/-- A live cache entry short-circuits `request`: the cached payload is
returned with no upstream call and the cache unchanged. -/
lemma request_hit {T : Type} (now : ℕ) (path : String)
    (params : List (String × Option String)) (cacheMs : ℕ) (up : UpstreamResponse T)
    (cache : Cache T) (entry : CacheEntry T) (h0 : 0 < cacheMs)
    (hget : cache (buildCacheKey path (sanitizeParams params)) = some entry)
    (hlive : ¬ entry.expiresAt < now) :
    request now path params cacheMs up cache = ⟨.ok entry.payload, cache, false⟩ := by
  have hread : readCache now cache (buildCacheKey path (sanitizeParams params)) =
      (some entry.payload, cache) := by
    unfold readCache
    rw [hget]
    dsimp only
    rw [if_neg hlive]
  simp only [request, if_pos h0, hread]

/-- An expired cache entry is evicted and `request` goes upstream. -/
lemma request_expired_calls {T : Type} (now : ℕ) (path : String)
    (params : List (String × Option String)) (cacheMs : ℕ) (up : UpstreamResponse T)
    (cache : Cache T) (entry : CacheEntry T) (h0 : 0 < cacheMs)
    (hget : cache (buildCacheKey path (sanitizeParams params)) = some entry)
    (hexp : entry.expiresAt < now) :
    (request now path params cacheMs up cache).calledUpstream = true := by
  have hread : readCache now cache (buildCacheKey path (sanitizeParams params)) =
      (none, fun k => if k = buildCacheKey path (sanitizeParams params) then none
        else cache k) := by
    unfold readCache
    rw [hget]
    dsimp only
    rw [if_pos hexp]
  simp only [request, if_pos h0, hread]
  rcases hb : up.body with msg | ⟨status, d, message, code⟩
  · rfl
  · dsimp only
    split <;> rfl

/-- C1 counterexample: the claim says a second identical query issued at or
after expiry of the entry causes a second upstream call; but the source
evicts only entries with `expiresAt < Date.now()`, so a second query at
exactly `t + ttl` (here 30000 = 0 + 30000) is a cache hit and performs no
upstream call. -/
theorem C1_counterexample :
    (request (T := ℤ) 30000 "vessel/zone" [("minlat", some "36")] 30000
      ⟨true, 200, .envelope "success" 8 none none⟩
      (request (T := ℤ) 0 "vessel/zone" [("minlat", some "36")] 30000
        ⟨true, 200, .envelope "success" 7 none none⟩
        (Cache.empty ℤ)).cache).calledUpstream = false ∧
    (request (T := ℤ) 0 "vessel/zone" [("minlat", some "36")] 30000
      ⟨true, 200, .envelope "success" 7 none none⟩
      (Cache.empty ℤ)).calledUpstream = true := by
  constructor <;> with_unfolding_all decide

/-- C1 (amended): if a `request` with ttl > 0 goes upstream and succeeds at
time t, then a second request with the same path and the same parameters in
any key order, issued at any time up to and including t + ttl, performs no
upstream call and returns the cached payload (so the two queries cause
exactly one upstream call); a second request issued strictly after t + ttl
finds the entry expired and performs a second upstream call. -/
theorem C1_cache_window {T : Type} (path : String)
    (params1 params2 : List (String × Option String)) (hperm : params1.Perm params2)
    (ttl t t' : ℕ) (h0 : 0 < ttl) (cache : Cache T)
    (up1 up2 : UpstreamResponse T) (data : T)
    (hcall : (request t path params1 ttl up1 cache).calledUpstream = true)
    (hok : (request t path params1 ttl up1 cache).result = .ok data) :
    (t' ≤ t + ttl →
      (request t' path params2 ttl up2
        (request t path params1 ttl up1 cache).cache).calledUpstream = false ∧
      (request t' path params2 ttl up2
        (request t path params1 ttl up1 cache).cache).result = .ok data) ∧
    (t + ttl < t' →
      (request t' path params2 ttl up2
        (request t path params1 ttl up1 cache).cache).calledUpstream = true) := by
  have hkey : buildCacheKey path (sanitizeParams params2) =
      buildCacheKey path (sanitizeParams params1) :=
    buildCacheKey_perm path (hperm.filterMap _).symm
  have hstore : (request t path params1 ttl up1 cache).cache
      (buildCacheKey path (sanitizeParams params2)) = some ⟨t + ttl, data⟩ := by
    rw [hkey]
    exact request_success_writes t path params1 ttl up1 cache data h0 hcall hok
  constructor
  · intro hwithin
    have hhit := request_hit t' path params2 ttl up2
      (request t path params1 ttl up1 cache).cache ⟨t + ttl, data⟩ h0 hstore
      (by simpa using Nat.not_lt.mpr hwithin)
    rw [hhit]
    exact ⟨rfl, rfl⟩
  · intro hafter
    exact request_expired_calls t' path params2 ttl up2
      (request t path params1 ttl up1 cache).cache ⟨t + ttl, data⟩ h0 hstore
      (by simpa using hafter)

/-- C1 witness: a concrete first call goes upstream and succeeds; a second
call with the parameters in a different key order within the TTL window is
served from cache with no upstream call. -/
theorem C1_witness :
    ([("minlat", some "36"), ("maxlat", some "41")].Perm
      [("maxlat", some "41"), ("minlat", some "36")]) ∧
    (0 : ℕ) < 300000 ∧
    (request (T := ℤ) 10 "vessel/zone" [("minlat", some "36"), ("maxlat", some "41")] 300000
      ⟨true, 200, .envelope "success" 5 none none⟩ (Cache.empty ℤ)).calledUpstream = true ∧
    (request (T := ℤ) 10 "vessel/zone" [("minlat", some "36"), ("maxlat", some "41")] 300000
      ⟨true, 200, .envelope "success" 5 none none⟩ (Cache.empty ℤ)).result = .ok 5 ∧
    ((10 : ℕ) + 40 ≤ 10 + 300000 →
      (request (T := ℤ) 50 "vessel/zone" [("maxlat", some "41"), ("minlat", some "36")] 300000
        ⟨true, 200, .envelope "success" 9 none none⟩
        (request (T := ℤ) 10 "vessel/zone" [("minlat", some "36"), ("maxlat", some "41")]
          300000 ⟨true, 200, .envelope "success" 5 none none⟩
          (Cache.empty ℤ)).cache).calledUpstream = false ∧
      (request (T := ℤ) 50 "vessel/zone" [("maxlat", some "41"), ("minlat", some "36")] 300000
        ⟨true, 200, .envelope "success" 9 none none⟩
        (request (T := ℤ) 10 "vessel/zone" [("minlat", some "36"), ("maxlat", some "41")]
          300000 ⟨true, 200, .envelope "success" 5 none none⟩
          (Cache.empty ℤ)).cache).result = .ok 5) :=
  ⟨by with_unfolding_all decide, by decide,
   by with_unfolding_all decide, by with_unfolding_all decide,
   fun hle =>
     have h50 : (50 : ℕ) ≤ 10 + 300000 := by decide
     (C1_cache_window "vessel/zone" [("minlat", some "36"), ("maxlat", some "41")]
       [("maxlat", some "41"), ("minlat", some "36")] (by with_unfolding_all decide)
       300000 10 50 (by decide) (Cache.empty ℤ)
       ⟨true, 200, .envelope "success" 5 none none⟩
       ⟨true, 200, .envelope "success" 9 none none⟩ 5
       (by with_unfolding_all decide) (by with_unfolding_all decide)).1 h50⟩

/-- The first zero zone queries produce an empty stream. -/
lemma streamUpTo_zero (now : ℕ) (responses : ℕ → List MstZoneVessel) :
    streamUpTo now responses 0 = [] := rfl

/-- One more zone query appends its normalized batch to the stream. -/
lemma streamUpTo_succ (now : ℕ) (responses : ℕ → List MstZoneVessel) (k : ℕ) :
    streamUpTo now responses (k + 1) =
      streamUpTo now responses k ++ (responses k).map (mapZoneVesselToShip now) := by
  unfold streamUpTo
  rw [List.range_succ, List.flatMap_append, List.map_append]
  simp

/-- Deduplicating a concatenation folds the suffix into the prefix's dedup
state. -/
lemma dedupFirst_append (A B : List ShipSummary) :
    dedupFirst (A ++ B) = B.foldl insertShip (dedupFirst A) := by
  unfold dedupFirst
  rw [List.foldl_append]

/-- The invariant of the sequential box loop: the dedup list always equals
the first-occurrence dedup of the stream of issued queries, the query list
only grows, and every box after the first was issued only while the dedup
list was still below the result cap. -/
lemma areaLoop_spec (now : ℕ) (responses : ℕ → List MstZoneVessel) (mb : ℤ) :
    ∀ (boxes : List BoundingBox) (dedup : List ShipSummary) (queries : List ZoneQuery),
      dedup = dedupFirst (streamUpTo now responses queries.length) →
      (areaLoop now responses mb boxes dedup queries).1 =
        dedupFirst (streamUpTo now responses
          (areaLoop now responses mb boxes dedup queries).2.length) ∧
      queries.length ≤ (areaLoop now responses mb boxes dedup queries).2.length ∧
      (∀ k, queries.length < k →
        k < (areaLoop now responses mb boxes dedup queries).2.length →
        (dedupFirst (streamUpTo now responses k)).length < MAX_RESULTS) := by
  intro boxes
  induction boxes with
  | nil =>
      intro dedup queries hinv
      rw [areaLoop]
      refine ⟨hinv, le_refl _, ?_⟩
      intro k h1 h2
      exact absurd (h1.trans h2) (lt_irrefl _)
  | cons box rest ih =>
      intro dedup queries hinv
      rw [areaLoop]
      have hlen : (queries ++
          [(⟨box.minLat, box.maxLat, box.minLon, box.maxLon, mb, "simple"⟩ : ZoneQuery)]).length
          = queries.length + 1 := by
        rw [List.length_append]
        rfl
      have hded' : (responses queries.length).foldl
          (fun d v => insertShip d (mapZoneVesselToShip now v)) dedup =
          dedupFirst (streamUpTo now responses (queries.length + 1)) := by
        rw [hinv, ← List.foldl_map (mapZoneVesselToShip now) insertShip,
          streamUpTo_succ, dedupFirst_append]
      by_cases hcap : MAX_RESULTS ≤ ((responses queries.length).foldl
          (fun d v => insertShip d (mapZoneVesselToShip now v)) dedup).length
      · rw [if_pos hcap]
        refine ⟨?_, ?_, ?_⟩
        · rw [hlen]
          exact hded'
        · rw [hlen]
          exact Nat.le_succ _
        · intro k h1 h2
          rw [hlen] at h2
          omega
      · rw [if_neg hcap]
        have hrec := ih ((responses queries.length).foldl
            (fun d v => insertShip d (mapZoneVesselToShip now v)) dedup)
          (queries ++ [⟨box.minLat, box.maxLat, box.minLon, box.maxLon, mb, "simple"⟩])
          (by rw [hlen]; exact hded')
        refine ⟨hrec.1, ?_, ?_⟩
        · refine le_trans ?_ hrec.2.1
          rw [hlen]
          exact Nat.le_succ _
        · intro k h1 h2
          by_cases hk : queries.length + 1 < k
          · exact hrec.2.2 k (by rw [hlen]; exact hk) h2
          · have hkeq : k = queries.length + 1 := by omega
            subst hkeq
            rw [← hded']
            exact Nat.lt_of_not_le hcap

/-- Every element of a fold of `insertShip` over an accumulator either was
in the accumulator, or is the image of the first stream element bearing its
id (first record wins). -/
lemma mem_foldl_insertShip :
    ∀ (l acc : List ShipSummary) (s : ShipSummary),
      s ∈ l.foldl insertShip acc →
      s ∈ acc ∨ ∃ pre post, l = pre ++ s :: post ∧ (∀ u ∈ pre, u.id ≠ s.id) ∧
        (∀ t ∈ acc, t.id ≠ s.id) := by
  intro l
  induction l with
  | nil =>
      intro acc s h
      exact Or.inl h
  | cons v rest ih =>
      intro acc s h
      rw [List.foldl_cons] at h
      rcases ih (insertShip acc v) s h with hmem | ⟨pre, post, heq, hpre, hacc⟩
      · unfold insertShip at hmem
        by_cases hdup : acc.any (fun t => t.id = v.id) = true
        · rw [if_pos hdup] at hmem
          exact Or.inl hmem
        · rw [if_neg hdup] at hmem
          rcases List.mem_append.mp hmem with hmem' | hmem'
          · exact Or.inl hmem'
          · rcases List.mem_singleton.mp hmem' with rfl
            right
            refine ⟨[], rest, rfl, by simp, ?_⟩
            intro t ht hid
            exact hdup (List.any_eq_true.mpr ⟨t, ht, by simp [hid]⟩)
      · right
        refine ⟨v :: pre, post, by rw [heq]; rfl, ?_, ?_⟩
        · intro u hu
          rcases List.mem_cons.mp hu with rfl | hu'
          · by_cases hdup : acc.any (fun t => t.id = u.id) = true
            · rcases List.any_eq_true.mp hdup with ⟨t, ht, htid⟩
              rw [decide_eq_true_eq] at htid
              have hts := hacc t (by unfold insertShip; rw [if_pos hdup]; exact ht)
              rw [htid] at hts
              exact hts
            · exact hacc u (by
                unfold insertShip
                rw [if_neg hdup]
                exact List.mem_append.mpr (Or.inr (List.mem_singleton.mpr rfl)))
          · exact hpre u hu'
        · intro t ht
          apply hacc
          unfold insertShip
          by_cases hdup : acc.any (fun t => t.id = v.id) = true
          · rw [if_pos hdup]
            exact ht
          · rw [if_neg hdup]
            exact List.mem_append.mpr (Or.inl ht)

/-- Folding `insertShip` preserves distinctness of the stored ids. -/
lemma foldl_insertShip_nodup :
    ∀ (l acc : List ShipSummary), (acc.map ShipSummary.id).Nodup →
      ((l.foldl insertShip acc).map ShipSummary.id).Nodup := by
  intro l
  induction l with
  | nil =>
      intro acc h
      exact h
  | cons v rest ih =>
      intro acc h
      rw [List.foldl_cons]
      apply ih
      unfold insertShip
      by_cases hdup : acc.any (fun t => t.id = v.id) = true
      · rw [if_pos hdup]
        exact h
      · rw [if_neg hdup]
        rw [List.map_append]
        simp only [List.map_cons, List.map_nil]
        rw [List.nodup_append]
        refine ⟨h, List.nodup_singleton _, ?_⟩
        intro a ha hb
        rcases List.mem_singleton.mp hb with rfl
        rcases List.mem_map.mp ha with ⟨t, ht, htid⟩
        exact hdup (List.any_eq_true.mpr ⟨t, ht, by simp [htid]⟩)

/-- The final filter-and-cap is a sublist of the dedup list. -/
lemma mapZoneResults_sublist (l : List ShipSummary) : List.Sublist (mapZoneResults l) l :=
  (List.take_sublist _ _).trans (List.filter_sublist _)

/-- C3: the area search result never exceeds the configured result cap,
and once the deduplicated set of the first k zone queries has reached the
cap, no further zone query is issued (at most k queries in total). -/
theorem C3_result_cap (now : ℕ) (responses : ℕ → List MstZoneVessel)
    (expression : String) (mbOpt : Option JsNum) :
    (∀ ships, (fetchVesselsInArea now responses expression mbOpt).1 = .ok ships →
      ships.length ≤ MAX_RESULTS) ∧
    (∀ k, MAX_RESULTS ≤ (dedupFirst (streamUpTo now responses k)).length →
      ((fetchVesselsInArea now responses expression mbOpt).2).length ≤ k) := by
  unfold fetchVesselsInArea
  rcases htok : tokenizeAreaExpression expression with e | boxes
  · constructor
    · intro ships h
      simp at h
    · intro k _
      simp
  · dsimp only
    have hspec := areaLoop_spec now responses (formatMinutesBack mbOpt) boxes [] [] rfl
    constructor
    · intro ships h
      have hmz : mapZoneResults
          (areaLoop now responses (formatMinutesBack mbOpt) boxes [] []).1 = ships := by
        simpa using h
      rw [← hmz]
      unfold mapZoneResults
      exact List.length_take_le _ _
    · intro k hk
      by_contra hlt
      push_neg at hlt
      rcases Nat.eq_zero_or_pos k with rfl | hk0
      · rw [streamUpTo_zero] at hk
        exact absurd hk (by decide)
      · exact absurd hk (Nat.not_le.mpr (hspec.2.2 k hk0 hlt))

set_option maxRecDepth 100000 in
/-- C3 witness: an empty concrete run returns at most the cap, and a run
whose first zone query already yields 200 distinct vessels stops after one
query of the two requested boxes. -/
theorem C3_witness :
    ((fetchVesselsInArea 0 (fun _ => []) "" none).1 = .ok ([] : List ShipSummary)) ∧
    ([] : List ShipSummary).length ≤ MAX_RESULTS ∧
    MAX_RESULTS ≤ (dedupFirst (streamUpTo 0 capZoneResponses 1)).length ∧
    ((fetchVesselsInArea 0 capZoneResponses "WMED,CMED" none).2).length ≤ 1 :=
  ⟨by with_unfolding_all decide,
   (C3_result_cap 0 (fun _ => []) "" none).1 [] (by with_unfolding_all decide),
   by with_unfolding_all decide,
   (C3_result_cap 0 capZoneResponses "WMED,CMED" none).2 1 (by with_unfolding_all decide)⟩

/-- C4: the area search result never contains two entries with the same
id, and every returned entry is the normalized image of the first vessel
bearing its id in the stream of the issued queries' responses (first
record wins). -/
theorem C4_dedup_first_wins (now : ℕ) (responses : ℕ → List MstZoneVessel)
    (expression : String) (mbOpt : Option JsNum) (ships : List ShipSummary)
    (hok : (fetchVesselsInArea now responses expression mbOpt).1 = .ok ships) :
    (ships.map ShipSummary.id).Nodup ∧
    ∀ s ∈ ships, ∃ pre post,
      streamUpTo now responses ((fetchVesselsInArea now responses expression mbOpt).2).length
        = pre ++ s :: post ∧ ∀ u ∈ pre, u.id ≠ s.id := by
  unfold fetchVesselsInArea at hok ⊢
  rcases htok : tokenizeAreaExpression expression with e | boxes
  · rw [htok] at hok
    simp at hok
  · rw [htok] at hok
    dsimp only at hok ⊢
    have hspec := areaLoop_spec now responses (formatMinutesBack mbOpt) boxes [] [] rfl
    have hships : mapZoneResults
        (areaLoop now responses (formatMinutesBack mbOpt) boxes [] []).1 = ships := by
      simpa using hok
    constructor
    · rw [← hships]
      have hnodup : (((areaLoop now responses (formatMinutesBack mbOpt) boxes [] []).1).map
          ShipSummary.id).Nodup := by
        rw [hspec.1]
        exact foldl_insertShip_nodup _ [] (by simp)
      exact List.Nodup.sublist ((mapZoneResults_sublist _).map ShipSummary.id) hnodup
    · intro s hs
      have hs' : s ∈ (areaLoop now responses (formatMinutesBack mbOpt) boxes [] []).1 :=
        (mapZoneResults_sublist _).subset (hships ▸ hs)
      rw [hspec.1] at hs'
      rcases mem_foldl_insertShip _ [] s hs' with habs | ⟨pre, post, heq, hpre, _⟩
      · cases habs
      · exact ⟨pre, post, heq, hpre⟩

/-- C4 witness: two same-mmsi vessels in one batch yield a single entry,
the image of the first; its id occurs nowhere earlier in the stream. -/
theorem C4_witness :
    ((fetchVesselsInArea 0 sampleZoneResponses "" none).1 = .ok [sampleShipA]) ∧
    ([sampleShipA].map ShipSummary.id).Nodup ∧
    (sampleShipA ∈ [sampleShipA]) ∧
    (∃ pre post,
      streamUpTo 0 sampleZoneResponses
        ((fetchVesselsInArea 0 sampleZoneResponses "" none).2).length
        = pre ++ sampleShipA :: post ∧ ∀ u ∈ pre, u.id ≠ sampleShipA.id) :=
  ⟨by with_unfolding_all decide,
   (C4_dedup_first_wins 0 sampleZoneResponses "" none [sampleShipA]
     (by with_unfolding_all decide)).1,
   List.mem_singleton.mpr rfl,
   (C4_dedup_first_wins 0 sampleZoneResponses "" none [sampleShipA]
     (by with_unfolding_all decide)).2 sampleShipA (List.mem_singleton.mpr rfl)⟩

end SafeShip
